import Mathlib

/-!
Verification of the TapIn client-side JavaScript against its specification.

This file shallowly embeds the browser-side code of the repository:
the `AuthManager` class (three near-duplicate copies: the first copy of
`static/js/auth.js`, the copy in the unnamed file `part_002`, and the third
copy of `static/js/auth.js`), the global `validatePassword` helper, the
student join-class form handler of `student_page_js/student_class.js`, and
the PIN generator of `student_javascript.js` / `class_page_javascript.js`.

Server responses are modelled as oracle inputs: a fetch either fails at the
network level or yields a response with a numeric status, a status text and
a body that may or may not parse as JSON.  JavaScript exceptions are always
caught by the code under study, so every embedded operation is a total
function; JS string truthiness (null / undefined / empty string are falsy)
is modelled explicitly.
-/

/-- JS truthiness for a nullable string (`null`/`undefined`/`''` are falsy). -/
def truthyStr : Option String → Bool
  | none => false
  | some s => s != ""

/-- A parsed JSON body, restricted to the fields the embedded code reads:
`error`, `token`, `status` (string fields that may be absent) and an opaque
`payload` standing for all remaining data. -/
structure Json where
  error : Option String := none
  token : Option String := none
  status : Option String := none
  payload : String := ""
deriving DecidableEq, Repr

/-- An HTTP response as seen by `fetch`: status code, status text, and the
result of `response.json()` (`none` means the body failed to parse, which in
JS throws; `parseMsg` is the message of that SyntaxError). -/
structure Resp where
  status : Nat
  statusText : String := ""
  body : Option Json := none
  parseMsg : String := ""
deriving DecidableEq, Repr

/-- `response.ok`: status in the range 200-299. -/
def Resp.isOk (r : Resp) : Bool := decide (200 ≤ r.status) && decide (r.status < 300)

/-- Outcome of a `fetch` call: a network-level rejection or a response. -/
inductive FetchOutcome where
  | net (msg : String)
  | resp (r : Resp)
deriving DecidableEq, Repr

/-- The client-side state an `AuthManager` instance can touch: its `token`
and `user` fields, the `sessionStorage` entry under key `tapin_token`, and
the last value assigned to `window.location.href`. -/
structure AuthState where
  token : Option String := none
  user : Option Json := none
  storage : Option String := none
  href : Option String := none
deriving DecidableEq, Repr

/-- `AuthManager.logout(reason)`: identical in every copy.  Clears the
in-memory token and user, removes `tapin_token` from sessionStorage and
navigates to `/logout`.  The `reason` argument is only logged. -/
def logout (_reason : String) (s : AuthState) : AuthState :=
  { s with token := none, user := none, storage := none, href := some "/logout" }

/-- `AuthManager.isAuthenticated()`: `this.user !== null && this.token !== null`. -/
def isAuthenticated (s : AuthState) : Bool :=
  s.user.isSome && s.token.isSome

/-- `AuthManager.getToken()` of the refresh-capable copies: re-reads
`sessionStorage.getItem('tapin_token')`, overwrites `this.token` when the
stored value is truthy, and returns `this.token`. -/
def getToken (s : AuthState) : Option String × AuthState :=
  match s.storage with
  | some t => if t != "" then (some t, { s with token := some t }) else (s.token, s)
  | none => (s.token, s)

/-- State after `getToken` (the refresh-capable `apiCall` starts with it). -/
def getTokenSt (s : AuthState) : AuthState := (getToken s).2

/- ===== AuthManager.apiCall ===== -/

/-- The value `apiCall` resolves with: either the parsed success body or a
constructed `{ error: msg }` object.  No copy of `apiCall` ever rejects —
every exception path is caught and turned into an `errObj`. -/
inductive JsResult where
  | data (j : Json)
  | errObj (msg : String)
deriving DecidableEq, Repr

/-- The fallback error text, the template `HTTP ${status}: ${statusText}`. -/
def httpFallback (r : Resp) : String :=
  "HTTP " ++ toString r.status ++ ": " ++ r.statusText

/-- Error message of the first `auth.js` copy for a non-ok, non-401
response: the body's truthy `error` field if it parses, else the fallback;
on a parse failure the `.catch` handler substitutes
`{ error: 'Request failed', statusText }`, whose `error` is truthy, so the
message is the constant `'Request failed'`. -/
def nonOkMsg_v1 (r : Resp) : String :=
  match r.body with
  | some j =>
    match j.error with
    | some e => if e != "" then e else httpFallback r
    | none => httpFallback r
  | none => "Request failed"

/-- Error message of the refresh-capable copies (`part_002` line 403 and the
third `auth.js` copy line 1213) for a non-ok, non-401 response: as above,
but the `.catch` handler substitutes `{ error: response.statusText }`, so on
a parse failure the message is the statusText when truthy, else the
fallback. -/
def nonOkMsg_rc (r : Resp) : String :=
  match r.body with
  | some j =>
    match j.error with
    | some e => if e != "" then e else httpFallback r
    | none => httpFallback r
  | none => if r.statusText != "" then r.statusText else httpFallback r

/-- `apiCall` of the first `auth.js` copy (lines 237-286): no token refresh.
On 401 it calls `this.logout(...)` and resolves with a fixed error object;
on other non-ok statuses it resolves with `nonOkMsg_v1`; on an ok status it
resolves with the parsed body, or a network-error object when
`response.json()` throws (the outer catch). -/
def apiCall_v1 (s : AuthState) (f : FetchOutcome) : JsResult × AuthState :=
  match f with
  | .net m => (.errObj ("Network error: " ++ m), s)
  | .resp r =>
    if r.status = 401 then
      (.errObj "Authentication required. Please log in again.", logout "401" s)
    else if !r.isOk then
      (.errObj (nonOkMsg_v1 r), s)
    else
      match r.body with
      | some j => (.data j, s)
      | none => (.errObj ("Network error: " ++ r.parseMsg), s)

/-- Outcome of the `/api/get_token` refresh fetch inside `apiCall`. -/
inductive RefreshOutcome where
  | net (msg : String)
  | resp (r : Resp)
deriving DecidableEq, Repr

/-- One round of the server oracle for a refresh-capable `apiCall`: the
response to the main request, and the `/api/get_token` response that would
be used if the main response is a 401. -/
structure Round where
  main : FetchOutcome
  refresh : RefreshOutcome
deriving DecidableEq, Repr

/-- The token extracted by the 401-refresh logic: the refresh fetch must
succeed at the network level, be `ok`, parse as JSON and carry a truthy
`token` field; every failure mode falls into the same
`'Session expired. Please log in again.'` branch. -/
def refreshedToken : RefreshOutcome → Option String
  | .net _ => none
  | .resp rr =>
    if rr.isOk then
      match rr.body with
      | some j => if truthyStr j.token then j.token else none
      | none => none
    else none

/-- The recursive `attemptCall` closure of `part_002`'s `apiCall`
(lines 352-416).  The `Nat` counts main-request attempts; `none` means the
modelled response sequence ran out while the code kept retrying. -/
def attemptCall_p2 : AuthState → List Round → Option (JsResult × AuthState × Nat)
  | _, [] => none
  | s, rd :: rest =>
    match rd.main with
    | .net m => some (.errObj ("Network error: " ++ m), s, 1)
    | .resp r =>
      if r.status = 401 then
        match refreshedToken rd.refresh with
        | some t =>
          (attemptCall_p2 { s with token := some t, storage := some t } rest).map
            (fun x => (x.1, x.2.1, x.2.2 + 1))
        | none => some (.errObj "Session expired. Please log in again.", s, 1)
      else if !r.isOk then
        some (.errObj (nonOkMsg_rc r), s, 1)
      else
        match r.body with
        | some j => some (.data j, s, 1)
        | none => some (.errObj ("Network error: " ++ r.parseMsg), s, 1)

/-- The recursive `attemptCall` closure of the third `auth.js` copy's
`apiCall` (lines 1171-1225); the source differs from `part_002` only in
console logging. -/
def attemptCall_v3 : AuthState → List Round → Option (JsResult × AuthState × Nat)
  | _, [] => none
  | s, rd :: rest =>
    match rd.main with
    | .net m => some (.errObj ("Network error: " ++ m), s, 1)
    | .resp r =>
      if r.status = 401 then
        match refreshedToken rd.refresh with
        | some t =>
          (attemptCall_v3 { s with token := some t, storage := some t } rest).map
            (fun x => (x.1, x.2.1, x.2.2 + 1))
        | none => some (.errObj "Session expired. Please log in again.", s, 1)
      else if !r.isOk then
        some (.errObj (nonOkMsg_rc r), s, 1)
      else
        match r.body with
        | some j => some (.data j, s, 1)
        | none => some (.errObj ("Network error: " ++ r.parseMsg), s, 1)

/-- `apiCall` of `part_002` (lines 331-419): runs `this.getToken()` first,
then the retry loop. -/
def apiCall_p2 (s : AuthState) (rounds : List Round) :
    Option (JsResult × AuthState × Nat) :=
  attemptCall_p2 (getTokenSt s) rounds

/-- `apiCall` of the third `auth.js` copy (lines 1151-1228). -/
def apiCall_v3 (s : AuthState) (rounds : List Round) :
    Option (JsResult × AuthState × Nat) :=
  attemptCall_v3 (getTokenSt s) rounds

/- ===== Request construction (headers and credentials) ===== -/

/-- A JS headers object: later assignments override earlier ones. -/
abbrev Headers : Type := List (String × String)

/-- Object-spread / assignment semantics for one header key. -/
def hset (hs : Headers) (k v : String) : Headers :=
  (hs.filter (fun p => p.1 != k)) ++ [(k, v)]

/-- `{ ...a, ...b }` on headers objects. -/
def hmerge (a b : Headers) : Headers :=
  b.foldl (fun acc p => hset acc p.1 p.2) a

/-- Lookup of a header key (the last assignment wins). -/
def hget (hs : Headers) (k : String) : Option String :=
  (hs.reverse.find? (fun p => p.1 == k)).map Prod.snd

/-- The `options` argument of `apiCall`; `none` fields are absent keys. -/
structure CallOptions where
  method : Option String := none
  body : Option String := none
  headers : Option Headers := none
  credentials : Option String := none

/-- The outgoing request as handed to `fetch`. -/
structure Request where
  headers : Headers
  credentials : String
  method : String
  body : Option String

/-- The `defaultOptions.headers` object of every `apiCall` copy:
`Content-Type` plus, when the current token is truthy, the
`Authorization: Bearer <token>` header. -/
def defaultHeaders (tok : Option String) : Headers :=
  [("Content-Type", "application/json")] ++
    (match tok with
     | some t => if t != "" then [("Authorization", "Bearer " ++ t)] else []
     | none => [])

/-- Request construction of the first `auth.js` copy's `apiCall` (lines
242-253): spread `defaultOptions` then `options`, re-merging `headers` when
the caller supplied some, `credentials` defaulting to `same-origin`. -/
def buildRequest_v1 (tok : Option String) (o : CallOptions) : Request :=
  let dh := defaultHeaders tok
  let hdrs :=
    match o.headers with
    | none => dh
    | some oh => hmerge dh oh
  { headers := hdrs, credentials := o.credentials.getD "same-origin",
    method := o.method.getD "GET", body := o.body }

/-- Request construction of the refresh-capable copies: as above, then
`attemptCall` force-sets `Authorization` when the token for the attempt is
truthy (first attempt: the `getToken()` result). -/
def buildRequest_rc (tok : Option String) (o : CallOptions) : Request :=
  let base := buildRequest_v1 tok o
  match tok with
  | some t =>
    if t != "" then
      { base with headers := hset base.headers "Authorization" ("Bearer " ++ t) }
    else base
  | none => base

/- ===== AuthManager.init ===== -/

/-- Whether `pat` is a prefix of `l` (character lists, Boolean). -/
def startsWithList : List Char → List Char → Bool
  | [], _ => true
  | _ :: _, [] => false
  | p :: ps, c :: cs => (p == c) && startsWithList ps cs

/-- Whether `pat` occurs contiguously inside `l` (Boolean infix test). -/
def infixOfList (pat : List Char) : List Char → Bool
  | [] => startsWithList pat []
  | c :: cs => startsWithList pat (c :: cs) || infixOfList pat cs

/-- JS `String.prototype.includes`. -/
def jsIncludes (s pat : String) : Bool := infixOfList pat.toList s.toList

/-- The role-specific login page chosen by `part_002`'s failure paths:
`/lecturer_login`, `/student_login` or `/account`. -/
def loginPathFor (pathname : String) : String :=
  if jsIncludes pathname "/lecturer/" then "/lecturer_login"
  else if jsIncludes pathname "/student/" then "/student_login"
  else "/account"

/-- Observable events of the `init` bootstrap, in execution order:
network fetches, writes to the `tapin_token` sessionStorage key, the
profile-validation `apiCall`, navigations, and the deferred health
re-check `part_002` schedules with `setTimeout`. -/
inductive Ev where
  | fetchHealth
  | fetchGetToken
  | setStorage (v : String)
  | removeStorage
  | callProfile (endpoint : String)
  | setHref (u : String)
  | scheduleRecheck
deriving DecidableEq, Repr

/-- Trace of a `logout()` call: remove `tapin_token`, navigate to `/logout`. -/
def logoutEvs : List Ev := [Ev.removeStorage, Ev.setHref "/logout"]

/-- The `storedToken` restore step shared by every `init` copy:
`this.token = sessionStorage.getItem('tapin_token')` when truthy. -/
def restoreToken (s : AuthState) : AuthState :=
  match s.storage with
  | some t => if t != "" then { s with token := some t } else s
  | none => s

/-- Shared tail of `init`: validate via `apiCall(endpoint)` and either load
the user, or log out when the result is missing/carries an error. -/
def initValidate (ep : String) (call : Option (JsResult × AuthState × Nat))
    (s : AuthState) (evs : List Ev) : Option Bool × AuthState × List Ev :=
  match call with
  | none => (none, s, evs ++ [Ev.callProfile ep])
  | some (res, s3, _) =>
    match res with
    | .data j =>
      if !(truthyStr j.error) then
        (some true, { s3 with user := some j }, evs ++ [Ev.callProfile ep])
      else
        (some false, logout "invalid" s3, evs ++ [Ev.callProfile ep] ++ logoutEvs)
    | .errObj _ =>
      (some false, logout "invalid" s3, evs ++ [Ev.callProfile ep] ++ logoutEvs)

/-- `AuthManager.init` of the third `auth.js` copy (lines 925-1024): restore
the stored token; with no truthy token, check `/api/health`, and on a valid
session fetch `/api/get_token`, store the received token and validate via
`apiCall('/profile/me')`; every failure path navigates to `/account`.
`none` as first component means the modelled response sequence for the
profile call ran out. -/
def init_v3 (s0 : AuthState) (health : FetchOutcome) (tokenFetch : FetchOutcome)
    (profileRounds : List Round) : Option Bool × AuthState × List Ev :=
  let s1 := restoreToken s0
  if !(truthyStr s1.token) then
    match health with
    | .net _ => (some false, { s1 with href := some "/account" },
        [Ev.fetchHealth, Ev.setHref "/account"])
    | .resp hr =>
      match hr.body with
      | none => (some false, { s1 with href := some "/account" },
          [Ev.fetchHealth, Ev.setHref "/account"])
      | some hj =>
        if hr.isOk && (hj.status == some "ok") then
          match tokenFetch with
          | .net _ => (some false, { s1 with href := some "/account" },
              [Ev.fetchHealth, Ev.fetchGetToken, Ev.setHref "/account"])
          | .resp tr =>
            match tr.body with
            | none => (some false, { s1 with href := some "/account" },
                [Ev.fetchHealth, Ev.fetchGetToken, Ev.setHref "/account"])
            | some tj =>
              if tr.isOk && truthyStr tj.token then
                let t := tj.token.getD ""
                let s2 : AuthState := { s1 with token := some t, storage := some t }
                initValidate "/profile/me" (apiCall_v3 s2 profileRounds) s2
                  [Ev.fetchHealth, Ev.fetchGetToken, Ev.setStorage t]
              else
                (some false, { s1 with href := some "/account" },
                  [Ev.fetchHealth, Ev.fetchGetToken, Ev.setHref "/account"])
        else
          (some false, { s1 with href := some "/account" },
            [Ev.fetchHealth, Ev.setHref "/account"])
  else
    initValidate "/profile/me" (apiCall_v3 s1 profileRounds) s1 []

/-- `AuthManager.init` of `part_002` (lines 10-198): as `init_v3`, but it
first adopts a truthy `auth_token` URL parameter, validates via
`apiCall('/auth/me')`, redirects failures to the role-specific login page
derived from the pathname, and — when the health check fails on a protected
path — schedules a deferred re-check instead of redirecting immediately. -/
def init_p2 (pathname : String) (authParam : Option String) (s0 : AuthState)
    (health : FetchOutcome) (tokenFetch : FetchOutcome)
    (profileRounds : List Round) : Option Bool × AuthState × List Ev :=
  let lp := loginPathFor pathname
  let sa := match authParam with
    | some a => if a != "" then { s0 with token := some a, storage := some a } else s0
    | none => s0
  let evs0 := match authParam with
    | some a => if a != "" then [Ev.setStorage a] else []
    | none => ([] : List Ev)
  let s1 := restoreToken sa
  if !(truthyStr s1.token) then
    match health with
    | .net _ => (some false, { s1 with href := some lp },
        evs0 ++ [Ev.fetchHealth, Ev.setHref lp])
    | .resp hr =>
      match hr.body with
      | none => (some false, { s1 with href := some lp },
          evs0 ++ [Ev.fetchHealth, Ev.setHref lp])
      | some hj =>
        if hr.isOk && (hj.status == some "ok") then
          match tokenFetch with
          | .net _ => (some false, { s1 with href := some lp },
              evs0 ++ [Ev.fetchHealth, Ev.fetchGetToken, Ev.setHref lp])
          | .resp tr =>
            match tr.body with
            | none => (some false, { s1 with href := some lp },
                evs0 ++ [Ev.fetchHealth, Ev.fetchGetToken, Ev.setHref lp])
            | some tj =>
              if tr.isOk && truthyStr tj.token then
                let t := tj.token.getD ""
                let s2 : AuthState := { s1 with token := some t, storage := some t }
                initValidate "/auth/me" (apiCall_p2 s2 profileRounds) s2
                  (evs0 ++ [Ev.fetchHealth, Ev.fetchGetToken, Ev.setStorage t])
              else
                (some false, { s1 with href := some lp },
                  evs0 ++ [Ev.fetchHealth, Ev.fetchGetToken, Ev.setHref lp])
        else
          if pathname.startsWith "/lecturer" || pathname.startsWith "/student" then
            (some false, s1, evs0 ++ [Ev.fetchHealth, Ev.scheduleRecheck])
          else
            (some false, { s1 with href := some lp },
              evs0 ++ [Ev.fetchHealth, Ev.setHref lp])
  else
    initValidate "/auth/me" (apiCall_p2 s1 profileRounds) s1 evs0

/- ===== Student join-class form (student_class.js) ===== -/

/-- JS `String.prototype.trim` applied to every form field value read by the
join handler: whitespace stripped from both ends. -/
def jsTrim (s : String) : String :=
  String.mk (((s.toList.dropWhile Char.isWhitespace).reverse.dropWhile
    Char.isWhitespace).reverse)

/-- The text inputs read by the `classForm` submit handler; `sect` models
the `section` field (a Lean keyword). -/
structure JoinFormFields where
  programme : String := ""
  faculty : String := ""
  department : String := ""
  courseName : String := ""
  courseCode : String := ""
  level : String := ""
  sect : String := ""
  joinPin : String := ""
deriving DecidableEq, Repr

/-- The join form's PIN test, `/^\d{4,6}$/` on the trimmed field value
(`student_class.js` line 116): 4 to 6 characters, all decimal digits. -/
def pinFormatOk (pin : String) : Bool :=
  decide (4 ≤ pin.toList.length) && decide (pin.toList.length ≤ 6) &&
    pin.toList.all Char.isDigit

/-- Observable effect of one submit of the join-class form: the request it
sends (endpoint and `join_pin` body value, `none` when no request is made),
the modal display style, whether `form.reset()` was called, and the alerts
shown. -/
structure JoinSubmitEffect where
  request : Option (String × String)
  modalDisplay : String
  formReset : Bool
  alerts : List String
deriving DecidableEq, Repr

/-- The `classForm` submit handler (`student_class.js` lines 102-134): trim
the PIN, test `/^\d{4,6}$/`, and only on a match POST
`{join_pin}` to `/api/classes/join`; `apiRes` is the value the `api` helper
would resolve with for that request. -/
def joinClassSubmit (f : JoinFormFields) (modalDisplay : String) (apiRes : Json) :
    JoinSubmitEffect :=
  let pin := jsTrim f.joinPin
  if !(pinFormatOk pin) then
    { request := none, modalDisplay := modalDisplay, formReset := false,
      alerts := ["Invalid PIN format. Use a 4-6 digit number."] }
  else if truthyStr apiRes.error then
    { request := some ("/api/classes/join", pin), modalDisplay := modalDisplay,
      formReset := false, alerts := [apiRes.error.getD ""] }
  else
    { request := some ("/api/classes/join", pin), modalDisplay := "none",
      formReset := true, alerts := ["Class joined successfully!"] }

/- ===== Attendance marking (backend, modelled from the spec) ===== -/

/-- An attendance session: whether it has been closed and when it expires
(spec §3: AttendanceSession has a method, expiry, geofence; only the fields
the claim needs are modelled). -/
structure AttendanceSession where
  closed : Bool
  expiresAt : Nat
deriving DecidableEq, Repr

/-- An attendance record row (session, student, status). -/
structure AttendanceRecord where
  sessionId : Nat
  studentId : Nat
  status : String
deriving DecidableEq, Repr

/-- Modelled from the spec: the Flask attendance-marking endpoint is absent
from `src/` (the backend directory contains only documentation).  Spec §8:
"marking attendance within an open session ... records a 'present' status;
expired or closed sessions reject new attendance marks."  Marking appends a
`present` record only when the session is neither closed nor expired at the
current time, and otherwise rejects the request. -/
def markAttendance (now : Nat) (sess : AttendanceSession) (sessId studentId : Nat)
    (records : List AttendanceRecord) : Except String (List AttendanceRecord) :=
  if sess.closed || decide (sess.expiresAt ≤ now) then
    .error "Session is closed or expired"
  else
    .ok (records ++ [⟨sessId, studentId, "present"⟩])

/- ===== validatePassword (static/js/auth.js, global helper) ===== -/

/-- The special characters of the regex `[!@#$%^&*(),.?":{}|<>]`. -/
def pwSpecialChars : List Char :=
  ['!', '@', '#', '$', '%', '^', '&', '*', '(', ')', ',', '.', '?', '\"',
   ':', '\x7b', '\x7d', '|', '<', '>']

/-- The five per-character rules of `validatePassword`, scored when the
feedback element exists: length at least 8, an uppercase letter, a lowercase
letter, a digit, a special character. -/
def pwScore (pwd : String) : Nat :=
  (if 8 ≤ pwd.length then 1 else 0) +
  (if pwd.toList.any (fun c => decide ('A' ≤ c) && decide (c ≤ 'Z')) then 1 else 0) +
  (if pwd.toList.any (fun c => decide ('a' ≤ c) && decide (c ≤ 'z')) then 1 else 0) +
  (if pwd.toList.any (fun c => c.isDigit) then 1 else 0) +
  (if pwd.toList.any (fun c => pwSpecialChars.contains c) then 1 else 0)

/-- `validatePassword(passwordElId, feedbackId)`: returns `undefined`
(modelled `none`) when the password element is missing; otherwise the score
is incremented only inside the `if (feedback)` block, so it stays 0 when the
feedback element is absent, and the function returns `score >= 3`. -/
def validatePassword (passwordElExists : Bool) (feedbackExists : Bool)
    (pwd : String) : Option Bool :=
  if !passwordElExists then none
  else
    let score := if feedbackExists then pwScore pwd else 0
    some (decide (3 ≤ score))

/- ===== PIN generation and the join-form PIN format ===== -/

/-- The generated join PIN, `Math.floor(100000 + r * 900000)` for a random
`r` in `[0,1)` (both `student_javascript.js` line 17 and
`class_page_javascript.js` line 191). -/
def generatePin (r : ℚ) : ℤ := ⌊(100000 : ℚ) + r * 900000⌋

/-- Decimal representation of a natural number (most significant digit
first), the string JS produces when a number is assigned to a form field. -/
def decimalStr (n : ℕ) : String :=
  String.mk ((Nat.digits 10 n).reverse.map (fun d => Char.ofNat (48 + d)))

/- ===== Theorems: C7, C9, C10 ===== -/

lemma digit_char_isDigit {d : ℕ} (hd : d < 10) :
    (Char.ofNat (48 + d)).isDigit = true := by
  interval_cases d <;> decide

lemma decimalStr_all_digits (n : ℕ) :
    (decimalStr n).toList.all Char.isDigit = true := by
  unfold decimalStr
  rw [List.all_eq_true]
  intro c hc
  simp only [String.toList, String.mk] at hc
  rw [List.mem_map] at hc
  obtain ⟨d, hd, rfl⟩ := hc
  exact digit_char_isDigit (Nat.digits_lt_base (by norm_num) (List.mem_reverse.mp hd))

lemma decimalStr_length (n : ℕ) (h1 : 100000 ≤ n) (h2 : n < 1000000) :
    (decimalStr n).toList.length = 6 := by
  unfold decimalStr
  simp only [String.toList, String.mk, List.length_map, List.length_reverse]
  have hn : n ≠ 0 := by omega
  rw [Nat.digits_len 10 n (by norm_num) hn]
  have : Nat.log 10 n = 5 := by
    apply Nat.log_eq_of_pow_le_of_lt_pow
    · norm_num; omega
    · norm_num; omega
  omega

/-- C7: for every `r` in `[0,1)` the generated PIN
`floor(100000 + r * 900000)` lies between 100000 and 999999, and its decimal
representation passes the join form's `/^\d{4,6}$/` test. -/
theorem generatePin_in_range (r : ℚ) (h0 : 0 ≤ r) (h1 : r < 1) :
    100000 ≤ generatePin r ∧ generatePin r ≤ 999999 ∧
      pinFormatOk (decimalStr (generatePin r).toNat) = true := by
  have hlo : (100000 : ℤ) ≤ generatePin r := by
    rw [generatePin, Int.le_floor]
    push_cast
    nlinarith
  have hhi : generatePin r < 1000000 := by
    rw [generatePin, Int.floor_lt]
    push_cast
    nlinarith
  refine ⟨hlo, by omega, ?_⟩
  have hn1 : 100000 ≤ (generatePin r).toNat := by omega
  have hn2 : (generatePin r).toNat < 1000000 := by omega
  rw [pinFormatOk, decimalStr_all_digits, decimalStr_length _ hn1 hn2]
  decide

/-- Witness for C7 at `r = 1/2`: the generated PIN is 550000. -/
theorem generatePin_in_range_witness :
    (0 : ℚ) ≤ 1/2 ∧ (1/2 : ℚ) < 1 ∧
      (100000 ≤ generatePin (1/2) ∧ generatePin (1/2) ≤ 999999 ∧
        pinFormatOk (decimalStr (generatePin (1/2)).toNat) = true) :=
  ⟨by norm_num, by norm_num, generatePin_in_range (1/2) (by norm_num) (by norm_num)⟩

/-- C9: `validatePassword` returns `true` only when the feedback element
exists and at least 3 of the 5 rules hold; when the feedback element is
absent (but the password element exists) the score stays 0 and every
password is rejected. -/
theorem validatePassword_requires_feedback (pe fe : Bool) (pwd : String) :
    (validatePassword pe fe pwd = some true → fe = true ∧ 3 ≤ pwScore pwd) ∧
    (pe = true → fe = false → validatePassword pe fe pwd = some false) := by
  constructor
  · intro h
    cases pe with
    | false => simp [validatePassword] at h
    | true =>
      cases fe with
      | false => simp [validatePassword] at h
      | true =>
        refine ⟨rfl, ?_⟩
        simp only [validatePassword, Bool.not_true, Bool.false_eq_true, if_false,
          if_true, Option.some.injEq] at h
        exact of_decide_eq_true h
  · intro hpe hfe
    subst hpe; subst hfe
    simp [validatePassword]

/-- Witness for C9: with the password element present and the feedback
element absent, a strong password is still rejected. -/
theorem validatePassword_requires_feedback_witness :
    validatePassword true false "Abc123!x" = some false :=
  (validatePassword_requires_feedback true false "Abc123!x").2 rfl rfl

/- ===== Theorems: C1, C2, C3 (apiCall behaviour) ===== -/

lemma attemptCall_p2_eq_v3 (rounds : List Round) (s : AuthState) :
    attemptCall_p2 s rounds = attemptCall_v3 s rounds := by
  induction rounds generalizing s with
  | nil => rfl
  | cons rd rest ih =>
    unfold attemptCall_p2 attemptCall_v3
    cases rd.main with
    | net m => rfl
    | resp r =>
      by_cases h : r.status = 401
      · cases hrt : refreshedToken rd.refresh <;> simp [h, hrt, ih]
      · by_cases hok : r.isOk <;> cases hb : r.body <;> simp [h, hok, hb]

/-- C2 (amended): the two refresh-capable `AuthManager` copies (`part_002`
and the third copy in `auth.js`) have extensionally equal `apiCall`
behaviour: for every starting state and every sequence of server responses
they produce the same result, the same final client state and the same
number of attempts. -/
theorem apiCall_copies_equiv (s : AuthState) (rounds : List Round) :
    apiCall_p2 s rounds = apiCall_v3 s rounds := by
  unfold apiCall_p2 apiCall_v3
  exact attemptCall_p2_eq_v3 rounds (getTokenSt s)

/-- C2 counterexample: the first `auth.js` copy is NOT equivalent to the
refresh-capable copies.  On the response sequence "401, then get_token
succeeds with `t2`, then the retried request returns `{payload: x}`", the
`part_002` copy resolves with the success data while the first copy resolves
with the fixed error object (and logs the user out). -/
theorem apiCall_copies_equiv_cex :
    (apiCall_p2 ⟨none, none, none, none⟩
        [⟨.resp ⟨401, "", none, ""⟩,
          .resp ⟨200, "", some ⟨none, some "t2", none, ""⟩, ""⟩⟩,
         ⟨.resp ⟨200, "", some ⟨none, none, none, "x"⟩, ""⟩, .net ""⟩]).map
        (fun x => x.1) = some (.data ⟨none, none, none, "x"⟩) ∧
    (apiCall_v1 ⟨none, none, none, none⟩ (.resp ⟨401, "", none, ""⟩)).1 =
      .errObj "Authentication required. Please log in again." ∧
    JsResult.data ⟨none, none, none, "x"⟩ ≠
      JsResult.errObj "Authentication required. Please log in again." :=
  ⟨by decide, by decide, by decide⟩

/-- C1 (amended): on a 401, the refresh-capable `apiCall` re-fetches a token
from `/api/get_token`; when the re-fetch fails (network error, non-ok
response, unparseable body, or no truthy token) it resolves with
`{error: 'Session expired. Please log in again.'}` leaving the state — in
particular `window.location.href` — untouched (no redirect to a login
page); when the re-fetch succeeds it stores the new token and retries, and
this repeats for as long as retries keep hitting 401 with successful
refreshes (not "exactly once").  The first `auth.js` copy instead performs
no retry at all: it logs out, which navigates to `/logout`, and resolves
with `{error: 'Authentication required. Please log in again.'}`. -/
theorem apiCall_401_refresh (s : AuthState) (r : Resp) (rf : RefreshOutcome)
    (rest : List Round) (h401 : r.status = 401) :
    (refreshedToken rf = none →
        attemptCall_p2 s (⟨.resp r, rf⟩ :: rest) =
          some (.errObj "Session expired. Please log in again.", s, 1)) ∧
    (∀ t, refreshedToken rf = some t →
        attemptCall_p2 s (⟨.resp r, rf⟩ :: rest) =
          (attemptCall_p2 { s with token := some t, storage := some t } rest).map
            (fun x => (x.1, x.2.1, x.2.2 + 1))) ∧
    apiCall_v1 s (.resp r) =
      (.errObj "Authentication required. Please log in again.", logout "401" s) ∧
    (logout "401" s).href = some "/logout" := by
  refine ⟨?_, ?_, ?_, rfl⟩
  · intro h
    rw [attemptCall_p2.eq_def]
    simp [h401, h]
  · intro t h
    rw [attemptCall_p2.eq_def]
    simp [h401, h]
  · unfold apiCall_v1
    simp [h401]

/-- Witness for C1's amended theorem: a 401 whose token re-fetch fails at
the network level yields the session-expired error object with the state
(and so `href`) unchanged. -/
theorem apiCall_401_refresh_witness :
    attemptCall_p2 ⟨none, none, none, none⟩
        [⟨.resp ⟨401, "", none, ""⟩, .net "down"⟩] =
      some (.errObj "Session expired. Please log in again.",
        ⟨none, none, none, none⟩, 1) :=
  (apiCall_401_refresh ⟨none, none, none, none⟩ ⟨401, "", none, ""⟩
    (.net "down") [] rfl).1 rfl

/-- C1 counterexample: (a) a call that hits 401 twice, with both token
re-fetches succeeding, performs 3 main requests — i.e. it retries twice,
not "exactly once"; (b) when the token re-fetch fails the call resolves
with an error object and the final state still has `href = none` — the
browser is not redirected to any login page. -/
theorem apiCall_401_refresh_cex :
    (apiCall_p2 ⟨none, none, none, none⟩
        [⟨.resp ⟨401, "", none, ""⟩,
          .resp ⟨200, "", some ⟨none, some "t1", none, ""⟩, ""⟩⟩,
         ⟨.resp ⟨401, "", none, ""⟩,
          .resp ⟨200, "", some ⟨none, some "t2", none, ""⟩, ""⟩⟩,
         ⟨.resp ⟨200, "", some ⟨none, none, none, "x"⟩, ""⟩, .net ""⟩]).map
        (fun x => x.2.2) = some 3 ∧
    apiCall_p2 ⟨none, none, none, none⟩ [⟨.resp ⟨401, "", none, ""⟩, .net "down"⟩] =
      some (.errObj "Session expired. Please log in again.",
        ⟨none, none, none, none⟩, 1) :=
  ⟨by decide, by decide⟩

/-- C3 (amended): on a non-ok, non-401 response every `apiCall` copy
resolves (never rejects) with an `{error: ...}` object; the message is the
body's `error` field when the body parses as JSON with a truthy `error`;
when the body fails to parse, the refresh-capable copies fall back to the
statusText or `HTTP <status>: <statusText>`, but the first `auth.js` copy
falls back to the constant `'Request failed'`, which is not built from the
HTTP status. -/
theorem apiCall_nonOk_error (s : AuthState) (r : Resp) (rf : RefreshOutcome)
    (h401 : r.status ≠ 401) (hok : r.isOk = false) :
    apiCall_v1 s (.resp r) = (.errObj (nonOkMsg_v1 r), s) ∧
    apiCall_p2 s [⟨.resp r, rf⟩] =
      some (.errObj (nonOkMsg_rc r), getTokenSt s, 1) ∧
    (∀ j e, r.body = some j → j.error = some e → e ≠ "" →
        nonOkMsg_v1 r = e ∧ nonOkMsg_rc r = e) ∧
    (r.body = none →
        nonOkMsg_v1 r = "Request failed" ∧
        nonOkMsg_rc r =
          (if r.statusText != "" then r.statusText else httpFallback r)) := by
  refine ⟨?_, ?_, ?_, ?_⟩
  · unfold apiCall_v1
    simp [h401, hok]
  · unfold apiCall_p2 attemptCall_p2
    simp [h401, hok]
  · intro j e hb he hne
    constructor <;> simp [nonOkMsg_v1, nonOkMsg_rc, hb, he, bne_iff_ne, hne]
  · intro hb
    constructor <;> simp [nonOkMsg_v1, nonOkMsg_rc, hb]

/-- Witness for C3's amended theorem at a concrete 500 response whose body
parses with a truthy error field. -/
theorem apiCall_nonOk_error_witness :
    apiCall_v1 ⟨none, none, none, none⟩
        (.resp ⟨500, "Internal Server Error", some ⟨some "boom", none, none, ""⟩, ""⟩) =
      (.errObj (nonOkMsg_v1 ⟨500, "Internal Server Error",
          some ⟨some "boom", none, none, ""⟩, ""⟩), ⟨none, none, none, none⟩) :=
  (apiCall_nonOk_error ⟨none, none, none, none⟩
    ⟨500, "Internal Server Error", some ⟨some "boom", none, none, ""⟩, ""⟩
    (.net "") (by decide) (by decide)).1

/-- C3 counterexample: on a 500 (or 503) whose body fails to parse as JSON,
the first `auth.js` copy resolves with the constant `'Request failed'` —
the same message regardless of the HTTP status, so the fallback is not
built from the HTTP status as claimed. -/
theorem apiCall_nonOk_error_cex :
    (apiCall_v1 ⟨none, none, none, none⟩
        (.resp ⟨500, "Internal Server Error", none, ""⟩)).1 =
      .errObj "Request failed" ∧
    (apiCall_v1 ⟨none, none, none, none⟩
        (.resp ⟨503, "Service Unavailable", none, ""⟩)).1 =
      .errObj "Request failed" ∧
    ("Request failed" : String) ≠ "HTTP 500: Internal Server Error" :=
  ⟨by decide, by decide, by decide⟩

/- ===== Theorems: C5 (Authorization header and credentials) ===== -/

lemma find_filter_ne (k k' : String) (h : k' ≠ k) (l : Headers) :
    (l.filter (fun p => p.1 != k')).find? (fun p => p.1 == k)
      = l.find? (fun p => p.1 == k) := by
  induction l with
  | nil => rfl
  | cons p rest ih =>
    rw [List.filter_cons]
    by_cases hp : p.1 = k
    · have hne : (p.1 != k') = true := by
        simp only [bne_iff_ne, ne_eq, hp]
        exact fun hh => h hh.symm
      rw [if_pos hne]
      simp [List.find?, hp]
    · have hpk : (p.1 == k) = false := by simp [hp]
      split
      · simp only [List.find?, hpk]
        exact ih
      · rw [ih]
        simp only [List.find?, hpk]

lemma hget_hset_same (a : Headers) (k v : String) :
    hget (hset a k v) k = some v := by
  unfold hget hset
  rw [List.reverse_append]
  simp [List.find?]

lemma hget_hset_ne (a : Headers) (k k' v : String) (h : k' ≠ k) :
    hget (hset a k' v) k = hget a k := by
  unfold hget hset
  rw [List.reverse_append]
  have hkk : (k' == k) = false := by simp [h]
  simp only [List.reverse_cons, List.reverse_nil, List.nil_append, List.singleton_append,
    List.find?, hkk]
  rw [List.append_eq, List.nil_append, ← List.filter_reverse, find_filter_ne k k' h]

lemma hget_hmerge_no_key (k : String) (b : Headers)
    (hb : b.all (fun p => p.1 != k) = true) (a : Headers) :
    hget (hmerge a b) k = hget a k := by
  induction b generalizing a with
  | nil => rfl
  | cons p rest ih =>
    rw [List.all_cons, Bool.and_eq_true] at hb
    have hpk : p.1 ≠ k := by simpa [bne_iff_ne] using hb.1
    show hget (hmerge (hset a p.1 p.2) rest) k = hget a k
    rw [ih hb.2 (hset a p.1 p.2), hget_hset_ne a k p.1 p.2 hpk]

lemma hget_defaultHeaders_some (t : String) (ht : t ≠ "") :
    hget (defaultHeaders (some t)) "Authorization" = some ("Bearer " ++ t) := by
  have hbt : (t != "") = true := by simp [bne_iff_ne, ht]
  simp [defaultHeaders, hget, hbt, List.find?]

lemma hget_defaultHeaders_none :
    hget (defaultHeaders none) "Authorization" = none := by
  simp [defaultHeaders, hget, List.find?]

/-- C5: for every `apiCall` (in both the plain and refresh-capable request
construction) whose caller options do not themselves override `credentials`
or supply an `Authorization` header: when a truthy token is stored the
outgoing request carries `Authorization: Bearer <token>` and credentials
`same-origin`; when no token is stored, no `Authorization` header is
attached (and credentials are still `same-origin`). -/
theorem apiCall_request_auth (tok : Option String) (o : CallOptions)
    (hcred : o.credentials = none)
    (hauth : (o.headers.getD []).all (fun p => p.1 != "Authorization") = true) :
    ((buildRequest_v1 tok o).credentials = "same-origin" ∧
      (buildRequest_rc tok o).credentials = "same-origin") ∧
    (∀ t, tok = some t → t ≠ "" →
      hget (buildRequest_v1 tok o).headers "Authorization" = some ("Bearer " ++ t) ∧
      hget (buildRequest_rc tok o).headers "Authorization" = some ("Bearer " ++ t)) ∧
    (tok = none →
      hget (buildRequest_v1 tok o).headers "Authorization" = none ∧
      hget (buildRequest_rc tok o).headers "Authorization" = none) := by
  have hv1 : ∀ tk : Option String,
      hget (buildRequest_v1 tk o).headers "Authorization"
        = hget (defaultHeaders tk) "Authorization" := by
    intro tk
    unfold buildRequest_v1
    cases ho : o.headers with
    | none => rfl
    | some oh =>
      have : (oh.all (fun p => p.1 != "Authorization")) = true := by
        rw [ho] at hauth
        simpa using hauth
      simpa using hget_hmerge_no_key "Authorization" oh this (defaultHeaders tk)
  refine ⟨?_, ?_, ?_⟩
  · constructor
    · simp [buildRequest_v1, hcred]
    · cases tok with
      | none => simp [buildRequest_rc, buildRequest_v1, hcred]
      | some t =>
        by_cases ht : (t != "") = true <;>
          simp [buildRequest_rc, buildRequest_v1, hcred, ht]
  · intro t htok ht
    subst htok
    have hbt : (t != "") = true := by simp [bne_iff_ne, ht]
    constructor
    · rw [hv1 (some t), hget_defaultHeaders_some t ht]
    · unfold buildRequest_rc
      simp only [hbt, if_true]
      exact hget_hset_same _ "Authorization" ("Bearer " ++ t)
  · intro htok
    subst htok
    constructor
    · rw [hv1 none, hget_defaultHeaders_none]
    · show hget (buildRequest_v1 none o).headers "Authorization" = none
      rw [hv1 none, hget_defaultHeaders_none]

/-- Witness for C5 at the default (empty) options object with a concrete
stored token. -/
theorem apiCall_request_auth_witness :
    hget (buildRequest_v1 (some "tok") ⟨none, none, none, none⟩).headers "Authorization"
        = some ("Bearer " ++ "tok") ∧
    hget (buildRequest_rc (some "tok") ⟨none, none, none, none⟩).headers "Authorization"
        = some ("Bearer " ++ "tok") :=
  (apiCall_request_auth (some "tok") ⟨none, none, none, none⟩ rfl (by decide)).2.1
    "tok" rfl (by decide)

/-- C10: `logout` (identical in every `AuthManager` copy) unconditionally
clears the in-memory token and user and removes the `tapin_token`
sessionStorage entry, so `isAuthenticated` is `false` immediately after,
regardless of the reason argument or prior state. -/
theorem logout_clears_auth (reason : String) (s : AuthState) :
    (logout reason s).token = none ∧ (logout reason s).user = none ∧
      (logout reason s).storage = none ∧ isAuthenticated (logout reason s) = false := by
  refine ⟨rfl, rfl, rfl, ?_⟩
  simp [logout, isAuthenticated]

/- ===== Theorems: C4 (init stores the bridged token before validating) ===== -/

lemma initValidate_trace (ep : String) (call : Option (JsResult × AuthState × Nat))
    (s : AuthState) (evs : List Ev) :
    ∃ rest, (initValidate ep call s evs).2.2 = evs ++ [Ev.callProfile ep] ++ rest := by
  unfold initValidate
  rcases call with _ | ⟨res, s3, n⟩
  · exact ⟨[], by simp⟩
  · cases res with
    | data j =>
      by_cases h : truthyStr j.error = true
      · exact ⟨logoutEvs, by simp [h]⟩
      · have h' : truthyStr j.error = false := by revert h; cases truthyStr j.error <;> simp
        exact ⟨[], by simp [h']⟩
    | errObj m => exact ⟨logoutEvs, by simp⟩

/-- C4: when `init` starts with no token in sessionStorage (and none in
memory) and the `/api/health` check reports a valid session (`ok` response
whose body has `status: 'ok'`), it fetches `/api/get_token`, and on a
successful token response it writes the received token to the
`tapin_token` sessionStorage key BEFORE issuing the profile-validation
`apiCall`: the event trace begins
`fetchHealth, fetchGetToken, setStorage t, callProfile <endpoint>`.
Proved for the third `auth.js` copy (endpoint `/profile/me`) and for the
`part_002` copy with no `auth_token` URL parameter (endpoint `/auth/me`). -/
theorem init_stores_token_before_validate
    (s0 : AuthState) (hr tr : Resp) (hj tj : Json) (t : String)
    (profileRounds : List Round) (pathname : String)
    (hstor : s0.storage = none) (htok : s0.token = none)
    (hhb : hr.body = some hj) (hhok : hr.isOk = true) (hhs : hj.status = some "ok")
    (htb : tr.body = some tj) (htrok : tr.isOk = true) (htt : tj.token = some t)
    (ht : t ≠ "") :
    (∃ rest, (init_v3 s0 (.resp hr) (.resp tr) profileRounds).2.2 =
        [Ev.fetchHealth, Ev.fetchGetToken, Ev.setStorage t,
          Ev.callProfile "/profile/me"] ++ rest) ∧
    (∃ rest, (init_p2 pathname none s0 (.resp hr) (.resp tr) profileRounds).2.2 =
        [Ev.fetchHealth, Ev.fetchGetToken, Ev.setStorage t,
          Ev.callProfile "/auth/me"] ++ rest) := by
  have hs1 : restoreToken s0 = s0 := by unfold restoreToken; rw [hstor]
  have hbt : (t != "") = true := by simp [ht]
  constructor
  · obtain ⟨rest, hrest⟩ := initValidate_trace "/profile/me"
      (apiCall_v3 { s0 with token := some t, storage := some t } profileRounds)
      { s0 with token := some t, storage := some t }
      [Ev.fetchHealth, Ev.fetchGetToken, Ev.setStorage t]
    refine ⟨rest, ?_⟩
    simp only [init_v3, hs1, htok, truthyStr, hhb, hhok, hhs, htb, htrok, htt, hbt,
      Option.getD_some, Bool.not_false, if_true, beq_self_eq_true, Bool.and_self,
      Bool.true_and]
    rw [hrest]
    simp
  · obtain ⟨rest, hrest⟩ := initValidate_trace "/auth/me"
      (apiCall_p2 { s0 with token := some t, storage := some t } profileRounds)
      { s0 with token := some t, storage := some t }
      [Ev.fetchHealth, Ev.fetchGetToken, Ev.setStorage t]
    refine ⟨rest, ?_⟩
    simp only [init_p2, hs1, htok, truthyStr, hhb, hhok, hhs, htb, htrok, htt, hbt,
      Option.getD_some, Bool.not_false, if_true, beq_self_eq_true, Bool.and_self,
      Bool.true_and, List.nil_append]
    rw [hrest]
    simp

/-- Witness for C4 at concrete healthy-session, fresh-token inputs. -/
theorem init_stores_token_before_validate_witness :
    (∃ rest, (init_v3 ⟨none, none, none, none⟩
        (.resp ⟨200, "", some ⟨none, none, some "ok", ""⟩, ""⟩)
        (.resp ⟨200, "", some ⟨none, some "tok", none, ""⟩, ""⟩)
        [⟨.resp ⟨200, "", some ⟨none, none, none, "u"⟩, ""⟩, .net ""⟩]).2.2 =
      [Ev.fetchHealth, Ev.fetchGetToken, Ev.setStorage "tok",
        Ev.callProfile "/profile/me"] ++ rest) ∧
    (∃ rest, (init_p2 "/student/dashboard" none ⟨none, none, none, none⟩
        (.resp ⟨200, "", some ⟨none, none, some "ok", ""⟩, ""⟩)
        (.resp ⟨200, "", some ⟨none, some "tok", none, ""⟩, ""⟩)
        [⟨.resp ⟨200, "", some ⟨none, none, none, "u"⟩, ""⟩, .net ""⟩]).2.2 =
      [Ev.fetchHealth, Ev.fetchGetToken, Ev.setStorage "tok",
        Ev.callProfile "/auth/me"] ++ rest) :=
  init_stores_token_before_validate ⟨none, none, none, none⟩
    ⟨200, "", some ⟨none, none, some "ok", ""⟩, ""⟩
    ⟨200, "", some ⟨none, some "tok", none, ""⟩, ""⟩
    ⟨none, none, some "ok", ""⟩ ⟨none, some "tok", none, ""⟩ "tok"
    [⟨.resp ⟨200, "", some ⟨none, none, none, "u"⟩, ""⟩, .net ""⟩]
    "/student/dashboard" rfl rfl rfl (by decide) rfl rfl (by decide) rfl (by decide)

/- ===== Theorems: C6 (join form submits iff the PIN format matches) ===== -/

/-- C6: the join-class submit handler sends a request — a POST of the
trimmed PIN to `/api/classes/join` — exactly when the trimmed PIN matches
`/^\d{4,6}$/`; for a non-matching PIN no request is sent, the modal stays
as it was, the form is not reset, and only the invalid-format alert is
shown.  (Creation of the enrollment record itself is server-side and out of
the client model.) -/
theorem joinForm_submit_iff_pin (f : JoinFormFields) (modal : String) (apiRes : Json) :
    ((joinClassSubmit f modal apiRes).request.isSome = pinFormatOk (jsTrim f.joinPin)) ∧
    (∀ ep pin, (joinClassSubmit f modal apiRes).request = some (ep, pin) →
        ep = "/api/classes/join" ∧ pin = jsTrim f.joinPin) ∧
    (pinFormatOk (jsTrim f.joinPin) = false →
        joinClassSubmit f modal apiRes =
          ⟨none, modal, false, ["Invalid PIN format. Use a 4-6 digit number."]⟩) := by
  unfold joinClassSubmit
  by_cases hp : pinFormatOk (jsTrim f.joinPin) = true
  · by_cases he : truthyStr apiRes.error = true
    · simp [hp, he]
    · have he' : truthyStr apiRes.error = false := by
        revert he; cases truthyStr apiRes.error <;> simp
      simp [hp, he']
  · have hp' : pinFormatOk (jsTrim f.joinPin) = false := by
      revert hp; cases pinFormatOk (jsTrim f.joinPin) <;> simp
    simp [hp']

/-- Witness for C6 at a PIN that fails the format test. -/
theorem joinForm_submit_iff_pin_witness :
    joinClassSubmit ⟨"", "", "", "", "", "", "", "12a"⟩ "flex" ⟨none, none, none, ""⟩ =
      ⟨none, "flex", false, ["Invalid PIN format. Use a 4-6 digit number."]⟩ :=
  (joinForm_submit_iff_pin ⟨"", "", "", "", "", "", "", "12a"⟩ "flex"
    ⟨none, none, none, ""⟩).2.2 (by decide)

/- ===== Theorems: C8 (expired/closed sessions reject marks) ===== -/

/-- C8: marking attendance in a session that is closed or whose expiry time
has passed is rejected, and no attendance record is created (the operation
never returns an updated record list). -/
theorem expired_or_closed_rejects_mark (now : Nat) (sess : AttendanceSession)
    (sessId studentId : Nat) (records : List AttendanceRecord)
    (h : sess.closed = true ∨ sess.expiresAt ≤ now) :
    markAttendance now sess sessId studentId records =
      .error "Session is closed or expired" ∧
    ∀ recs, markAttendance now sess sessId studentId records ≠ .ok recs := by
  have hc : (sess.closed || decide (sess.expiresAt ≤ now)) = true := by
    rcases h with h | h <;> simp [h]
  unfold markAttendance
  simp [hc]

/-- Witness for C8: a closed session rejects a mark. -/
theorem expired_or_closed_rejects_mark_witness :
    markAttendance 100 ⟨true, 200⟩ 1 2 [] = .error "Session is closed or expired" :=
  (expired_or_closed_rejects_mark 100 ⟨true, 200⟩ 1 2 [] (Or.inl rfl)).1
